import Mathlib

/-!
Verification of the observability and error-classification pipeline of the
literati-library AI service (src/ai-service/main.py and
src/ai-service/config/sentry_config.py), as a shallow embedding in Lean 4.

The embedding models:
  * Python exceptions reaching this layer (`Exc`): arbitrary provider
    failures carrying an optional integer `code` attribute, and the
    FastAPI `HTTPException` raised by the handler;
  * the telemetry side effects as an explicit trace (`TraceEvent`):
    transaction starts, status sets, finishes, breadcrumbs, provider
    invocations and `capture_exception` submissions;
  * `filter_events`, `filter_transactions`, `report_error`,
    `add_breadcrumb`, the `SentryTransaction` context manager, the
    `with_sentry_transaction` decorator, and the `summarize_note`
    handler, each translated line by line from the source.
Randomness (`random.random()`) is modelled by a rational parameter in
[0, 1); process state `SENTRY_AVAILABLE` and the `ENVIRONMENT` variable
are explicit parameters.
-/

namespace Literati

/-- Case-insensitive substring check on character lists, mirroring the
Python expression `needle in haystack.lower()`: `listContains n h` is
true iff `n` occurs contiguously inside `h`. -/
def listContains (needle : List Char) : List Char → Bool
  | [] => needle.isEmpty
  | c :: rest => needle.isPrefixOf (c :: rest) || listContains needle rest

/-- The character list of a string with every character lowercased,
mirroring Python `s.lower()` for the ASCII strings this service handles. -/
def lowerChars (s : String) : List Char := s.toList.map Char.toLower

/-- Predicate `containsCI needle s` models Python `needle in s.lower()` for an
already-lowercase `needle`. -/
def containsCI (needle : String) (s : String) : Bool :=
  listContains needle.toList (lowerChars s)

/-- Python exceptions visible to this layer: an arbitrary failure raised
by the provider call (message text, optional integer `code` attribute,
whether it is a `ValueError`), or the `HTTPException` the handler raises
after classification. -/
inductive Exc where
  | provider (msg : String) (code : Option Int) (isVal : Bool)
  | httpException (statusCode : Int) (detail : String)
deriving DecidableEq

/-- Models `getattr(e, "code", None)`: provider failures expose their optional
`code` attribute; `HTTPException` has no `code` attribute. -/
def Exc.code : Exc → Option Int
  | .provider _ c _ => c
  | .httpException _ _ => none

/-- Models `isinstance(e, ValueError)`: true exactly for provider failures
flagged as validation errors; `HTTPException` is not a `ValueError`. -/
def Exc.isValueErr : Exc → Bool
  | .provider _ _ v => v
  | .httpException _ _ => false

/-- Models `str(e)`: the message of a provider failure; for a Starlette
`HTTPException`, `str` is the status code followed by the detail. -/
def excStr : Exc → String
  | .provider m _ _ => m
  | .httpException s d => toString s ++ ": " ++ d

/-- The tuple of accepted status codes on main.py line 150. -/
def acceptedCodes : List Int := [400, 401, 403, 404, 408, 413, 415, 422, 429, 500]

/-- Lines 148-151 of main.py:
`status = getattr(e, "code", None) or 500` followed by
`if status not in (400, 401, 403, 404, 408, 413, 415, 422, 429, 500): status = 500`.
Python `or` replaces a falsy code (0 or absent) with 500. -/
def classify_status (e : Exc) : Int :=
  let status :=
    match e.code with
    | some c => if c = 0 then 500 else c
    | none => 500
  if acceptedCodes.contains status then status else 500

/-- The detail string built on main.py line 154. -/
def detailMsg (e : Exc) : String :=
  "Failed to generate summary. Error: " ++ excStr e

/-- An outbound error event as seen by `filter_events`: whether the event
payload has an `exception` entry, and the exception value carried in the
hint (`hint["exc_info"][1]`). -/
structure ErrorEvent where
  hasException : Bool
  excInfo : Option Exc
deriving DecidableEq

/-- Translation of `filter_events(event, hint)` from sentry_config.py lines 83-101,
translated branch by branch: drop everything in development; otherwise,
when the event has an exception entry and the hint carries the exception
value, drop `ValueError`s, then drop failures whose text contains
"timeout" case-insensitively; otherwise return the event unchanged. -/
def filter_events (env : String) (ev : ErrorEvent) : Option ErrorEvent :=
  if env == "development" then none
  else if ev.hasException then
    match ev.excInfo with
    | some e =>
      if e.isValueErr then none
      else if containsCI "timeout" (excStr e) then none
      else some ev
    | none => some ev
  else some ev

/-- An outbound transaction event as seen by `filter_transactions`:
`event.get("transaction")` and `event.get("contexts", {}).get("trace", {}).get("sampled")`
(`none` when the key path is missing). -/
structure TxEvent where
  transaction : Option String
  sampled : Option Bool
deriving DecidableEq

/-- The Python condition `event.get("transaction") and "health" in
event.get("transaction", "").lower()`: the name is present, truthy
(non-empty) and contains "health" case-insensitively. -/
def isHealthName : Option String → Bool
  | some s => (!(s == "")) && containsCI "health" s
  | none => false

/-- Translation of `filter_transactions(event, hint)` from sentry_config.py lines
103-111: for a health-named transaction whose trace was sampled, replace
the sampled flag by a fresh 1% draw (`random.random() < 0.01`, with the
uniform draw `r` made explicit); every other event is returned
unchanged. The function always returns the event (never `None`). -/
def filter_transactions (r : ℚ) (ev : TxEvent) : TxEvent :=
  if isHealthName ev.transaction then
    if ev.sampled = some true then
      { ev with sampled := some (decide (r < 1 / 100)) }
    else ev
  else ev

/-- The structured context handed to `report_error` by the handler:
a tag mapping and the extra data `{input_length, model}`. -/
structure ExtraData where
  input_length : Nat
  model : String
deriving DecidableEq

/-- The `context` dictionary argument of `report_error`. -/
structure ReportContext where
  tags : List (String × String)
  extra : ExtraData
deriving DecidableEq

/-- One `sentry_sdk.capture_exception` submission: the exception, the
tags keyword (empty for the bare guard-exit captures) and, for
`report_error`, the whole context dictionary passed as `extra`. -/
structure CaptureCall where
  exc : Exc
  tags : List (String × String)
  extraCtx : Option ReportContext
deriving DecidableEq

/-- A bare `sentry_sdk.capture_exception(e)` as performed by the
transaction guards on their failure exit path. -/
def plainCapture (e : Exc) : CaptureCall :=
  { exc := e, tags := [], extraCtx := none }

/-- The telemetry-side-effect trace of one request: transaction starts,
status sets, finishes, breadcrumbs, provider invocations and
capture submissions, in program order. -/
inductive TraceEvent where
  | txStart (name op : String)
  | setStatus (name status : String)
  | finish (name : String)
  | breadcrumb (message : String)
  | providerCall (prompt : String)
  | capture (c : CaptureCall)
deriving DecidableEq

/-- Models `SentryTransaction.__enter__`: starts a transaction only when the
SDK is available (otherwise `self.transaction` stays `None`). -/
def txEnter (sa : Bool) (name op : String) : List TraceEvent :=
  if sa then [.txStart name op] else []

/-- Models `SentryTransaction.__exit__` on the normal path: when the SDK is
available and a transaction was started, set status "ok" and finish. -/
def txExitOk (sa : Bool) (name : String) : List TraceEvent :=
  if sa then [.setStatus name "ok", .finish name] else []

/-- Models `SentryTransaction.__exit__` on the exception path: set status
"internal_error", capture the exception, finish; the exception then
propagates because `__exit__` returns a falsy value. -/
def txExitErr (sa : Bool) (name : String) (e : Exc) : List TraceEvent :=
  if sa then [.setStatus name "internal_error", .capture (plainCapture e), .finish name]
  else []

/-- Models `add_breadcrumb`: records only when the SDK is available. -/
def breadcrumbEvents (sa : Bool) (msg : String) : List TraceEvent :=
  if sa then [.breadcrumb msg] else []

/-- Translation of `report_error(error, context)` from sentry_config.py lines 113-129:
no-op without the SDK; otherwise one capture submission whose tags are
`{"section": "manual-report"}` merged with the context tags and whose
`extra` keyword is the whole context dictionary. -/
def report_error (sa : Bool) (e : Exc) (ctx : ReportContext) : List TraceEvent :=
  if sa then
    [.capture { exc := e, tags := ("section", "manual-report") :: ctx.tags, extraCtx := some ctx }]
  else []

/-- Running a guarded body under the `SentryTransaction` context manager
(sentry_config.py lines 183-209): enter, run the body, then the exit
handler; the body result (value or exception) is returned unchanged. -/
def sentryTransactionRun {α : Type} (sa : Bool) (name op : String)
    (body : Except Exc α) : Except Exc α × List TraceEvent :=
  match body with
  | .ok a => (.ok a, txEnter sa name op ++ txExitOk sa name)
  | .error e => (.error e, txEnter sa name op ++ txExitErr sa name e)

/-- Running a function wrapped by the `with_sentry_transaction` decorator
(sentry_config.py lines 156-180): without the SDK the function runs
bare; otherwise start, set "ok" on success or set "internal_error" and
capture on failure, and finish in the `finally` block; exceptions
re-raise unchanged. -/
def withSentryTransactionRun {α : Type} (sa : Bool) (name op : String)
    (body : Except Exc α) : Except Exc α × List TraceEvent :=
  if sa then
    match body with
    | .ok a => (.ok a, [.txStart name op, .setStatus name "ok", .finish name])
    | .error e =>
        (.error e,
         [.txStart name op, .setStatus name "internal_error",
          .capture (plainCapture e), .finish name])
  else (body, [])

/-- The request body of POST /summarize-note (the `Note` pydantic model,
main.py lines 38-40): `text` with `min_length=1` and an optional
`max_length` with `gt=0`. -/
structure Note where
  text : String
  max_length : Option Int := none
deriving DecidableEq

/-- The pydantic constraints of `Note`: non-empty text, and a positive
`max_length` when one is supplied. FastAPI rejects a body violating them
with 422 before the handler runs. -/
def noteValid (n : Note) : Bool :=
  (1 ≤ n.text.length) &&
    (match n.max_length with
     | none => true
     | some m => 0 < m)

/-- The prompt template on main.py line 114. -/
def summaryPrompt (text : String) : String :=
  "Please provide a concise, one-paragraph summary of the following note:\n\n---\n"
    ++ text ++ "\n---"

/-- The context dictionary built at the `report_error` call site
(main.py lines 133-145). -/
def mainReportCtx (n : Note) : ReportContext :=
  { tags := [("service", "ai-summarization"), ("endpoint", "summarize_note")],
    extra := { input_length := n.text.length, model := "gemini-2.0-flash" } }

/-- An HTTP response of the endpoint: 200 with a summary body, an
`HTTPException` turned into `{detail: ...}` with its status, or the 422
produced by request-body validation (whose body has no summary field). -/
inductive HttpResponse where
  | ok (summary : String)
  | error (status : Int) (detail : String)
  | validationReject
deriving DecidableEq

/-- The numeric HTTP status of a response. -/
def HttpResponse.status : HttpResponse → Int
  | .ok _ => 200
  | .error s _ => s
  | .validationReject => 422

/-- Whether the response body carries a `summary` field. -/
def HttpResponse.hasSummary : HttpResponse → Bool
  | .ok _ => true
  | _ => false

/-- The body of `summarize_note` (main.py lines 91-155) after pydantic
validation, parameterised by SDK availability `sa` and by the provider
behaviour (the result of `generate_content`: a text or an exception).
Program order: enter the outer transaction, breadcrumb, build the
prompt, enter the inner transaction, call the provider once; on success
exit the inner transaction with "ok", breadcrumb, return the summary and
exit the outer transaction with "ok"; on failure the inner exit handler
runs on the propagating exception, the except-branch reports the error
and raises an `HTTPException` with the classified status, and the outer
exit handler runs on that `HTTPException`. -/
def summarize_note (sa : Bool) (n : Note) (provider : Except Exc String) :
    HttpResponse × List TraceEvent :=
  let enterOuter := txEnter sa "summarize_note" "ai.summarization"
  let crumb1 := breadcrumbEvents sa "Starting note summarization"
  let prompt := summaryPrompt n.text
  let enterInner := txEnter sa "gemini_api_call" "ai.external_api"
  match provider with
  | .ok text =>
      let exitInner := txExitOk sa "gemini_api_call"
      let crumb2 := breadcrumbEvents sa "Summary generated successfully"
      let exitOuter := txExitOk sa "summarize_note"
      (.ok text,
       enterOuter ++ crumb1 ++ enterInner ++ [.providerCall prompt]
         ++ exitInner ++ crumb2 ++ exitOuter)
  | .error e =>
      let exitInner := txExitErr sa "gemini_api_call" e
      let reportEvs := report_error sa e (mainReportCtx n)
      let httpExc := Exc.httpException (classify_status e) (detailMsg e)
      let exitOuter := txExitErr sa "summarize_note" httpExc
      (.error (classify_status e) (detailMsg e),
       enterOuter ++ crumb1 ++ enterInner ++ [.providerCall prompt]
         ++ exitInner ++ reportEvs ++ exitOuter)

/-- One full request to POST /summarize-note: pydantic validation first
(422 with no summary and no telemetry on violation), then the handler. -/
def handleSummarizeRequest (sa : Bool) (n : Note) (provider : Except Exc String) :
    HttpResponse × List TraceEvent :=
  if noteValid n then summarize_note sa n provider
  else (.validationReject, [])

/-- The capture submissions occurring in a trace, in order. -/
def capturesOf (tr : List TraceEvent) : List CaptureCall :=
  tr.filterMap fun ev =>
    match ev with
    | .capture c => some c
    | _ => none

/-- The error event built by the SDK for a capture submission: it has an
exception entry and its hint carries the captured exception value. -/
def mkCaptureEvent (c : CaptureCall) : ErrorEvent :=
  { hasException := true, excInfo := some c.exc }

/-- The capture submissions of a trace that survive `filter_events`
(the `before_send` hook) and are forwarded to the collector. -/
def forwardedCaptures (env : String) (tr : List TraceEvent) : List CaptureCall :=
  (capturesOf tr).filter fun c => (filter_events env (mkCaptureEvent c)).isSome

/-- How many transactions named `name` are started in a trace. -/
def countTxStart (name : String) (tr : List TraceEvent) : Nat :=
  tr.countP fun ev =>
    match ev with
    | .txStart n _ => n == name
    | _ => false

/-- How many times the transaction named `name` is finished in a trace. -/
def countFinish (name : String) (tr : List TraceEvent) : Nat :=
  tr.countP fun ev =>
    match ev with
    | .finish n => n == name
    | _ => false

/-- How many provider invocations a trace contains. -/
def countProviderCalls (tr : List TraceEvent) : Nat :=
  tr.countP fun ev =>
    match ev with
    | .providerCall _ => true
    | _ => false

/-- The statuses set on the transaction named `name`, in order. -/
def statusesOf (name : String) (tr : List TraceEvent) : List String :=
  tr.filterMap fun ev =>
    match ev with
    | .setStatus n s => if n == name then some s else none
    | _ => none

/-- The three drop rules of spec section 4.3 for error events, in their
stated order; a first-match-wins scan over drop-only rules drops the
event exactly when some rule matches. -/
def specErrorDropRules (env : String) (e : Exc) : List Bool :=
  [env == "development", e.isValueErr, containsCI "timeout" (excStr e)]

/-- The capture submission produced by the `report_error` call site in
the except-branch of `summarize_note`. -/
def mainReportCapture (n : Note) (e : Exc) : CaptureCall :=
  { exc := e, tags := ("section", "manual-report") :: (mainReportCtx n).tags,
    extraCtx := some (mainReportCtx n) }

/-- A concrete valid request body. -/
def note0 : Note := { text := "hello world" }

/-- A concrete provider failure with no `code` attribute. -/
def exc0 : Exc := .provider "boom" none false

/-- A concrete provider failure exposing `code = 429`. -/
def exc429 : Exc := .provider "Resource has been exhausted" (some 429) false

/-- A concrete provider failure whose text matches the timeout
heuristic in mixed letter case. -/
def excTimeout : Exc := .provider "Connection TIMEOUT reached" none false

/-- A substring of `l` is still a substring after prepending `pre`. -/
lemma listContains_append_left (n pre l : List Char) (h : listContains n l = true) :
    listContains n (pre ++ l) = true := by
  induction pre with
  | nil => simpa using h
  | cons c rest ih => simp [listContains, ih]

/-- Lowercasing distributes over string append. -/
lemma lowerChars_append (a b : String) :
    lowerChars (a ++ b) = lowerChars a ++ lowerChars b := by
  cases a; cases b; simp [lowerChars, String.toList, String.append]

/-- A case-insensitive match in `b` survives prepending `a`. -/
lemma containsCI_append_left (nd a b : String) (h : containsCI nd b = true) :
    containsCI nd (a ++ b) = true := by
  unfold containsCI at *
  rw [lowerChars_append]
  exact listContains_append_left _ _ _ h

/-- In the development environment, `filter_events` drops every event. -/
lemma filter_events_dev (ev : ErrorEvent) : filter_events "development" ev = none := rfl

/-- A capture whose exception text matches the timeout heuristic is
dropped by `filter_events` in every environment. -/
lemma timeout_capture_dropped (env : String) (c : CaptureCall)
    (h : containsCI "timeout" (excStr c.exc) = true) :
    filter_events env (mkCaptureEvent c) = none := by
  unfold filter_events mkCaptureEvent
  by_cases hd : env == "development"
  · simp [hd]
  · simp [hd, h]

/-- The classified detail string keeps the timeout substring of the
original failure text, and so does the `str` of the raised
`HTTPException`. -/
lemma detail_keeps_timeout (e : Exc) (s : Int)
    (h : containsCI "timeout" (excStr e) = true) :
    containsCI "timeout" (excStr (Exc.httpException s (detailMsg e))) = true := by
  unfold excStr detailMsg
  have h1 : containsCI "timeout" ("Failed to generate summary. Error: " ++ excStr e) = true :=
    containsCI_append_left _ _ _ h
  exact containsCI_append_left _ _ _ h1

/-- A present `code` attribute inside the accepted tuple is returned
untouched by the classifier. -/
lemma classify_code_mem (e : Exc) (c : Int) (hc : e.code = some c)
    (hmem : acceptedCodes.contains c = true) : classify_status e = c := by
  have hne : c ≠ 0 := by
    intro h0
    subst h0
    exact absurd hmem (by decide)
  have hm : c ∈ acceptedCodes := by simpa using hmem
  simp [classify_status, hc, hne, hm]

/-- An absent `code` attribute classifies to 500. -/
lemma classify_code_none (e : Exc) (hc : e.code = none) : classify_status e = 500 := by
  simp [classify_status, hc, acceptedCodes]

/-- A `code` attribute outside the accepted tuple classifies to 500. -/
lemma classify_code_out (e : Exc) (c : Int) (hc : e.code = some c)
    (hmem : acceptedCodes.contains c = false) : classify_status e = 500 := by
  have hm : c ∉ acceptedCodes := by simpa using hmem
  by_cases h0 : c = 0
  · subst h0; simp [classify_status, hc, acceptedCodes]
  · simp [classify_status, hc, h0, hm]

/-- On a provider failure under a valid body, the endpoint responds
with the classified status and detail. -/
lemma failure_response (sa : Bool) (n : Note) (e : Exc) (h : noteValid n = true) :
    (handleSummarizeRequest sa n (Except.error e)).fst
      = HttpResponse.error (classify_status e) (detailMsg e) := by
  simp [handleSummarizeRequest, h, summarize_note]

/-- With telemetry enabled, a provider failure produces exactly the
three capture submissions of the failure path, in program order: the
inner guard capture of the provider exception, the manual report of the
same exception, and the outer guard capture of the raised
`HTTPException`. -/
lemma capturesOf_failure (n : Note) (e : Exc) (hn : noteValid n = true) :
    capturesOf (handleSummarizeRequest true n (Except.error e)).snd =
      [plainCapture e, mainReportCapture n e,
       plainCapture (Exc.httpException (classify_status e) (detailMsg e))] := by
  have hif : handleSummarizeRequest true n (Except.error e)
      = summarize_note true n (Except.error e) := by
    simp [handleSummarizeRequest, hn]
  rw [hif]
  rfl

/-- Membership in the forwarded captures implies the filter kept the
corresponding event. -/
lemma mem_forwarded_isSome (env : String) (tr : List TraceEvent) (c : CaptureCall)
    (h : c ∈ forwardedCaptures env tr) :
    (filter_events env (mkCaptureEvent c)).isSome = true :=
  (List.mem_filter.mp h).2

/-- The error filter never rewrites an event: it either drops it or
returns it unchanged. -/
lemma filter_events_none_or_id (env : String) (ev : ErrorEvent) :
    filter_events env ev = none ∨ filter_events env ev = some ev := by
  unfold filter_events
  by_cases hd : env == "development"
  · simp [hd]
  · by_cases hx : ev.hasException
    · cases hi : ev.excInfo with
      | none => simp [hd, hx, hi]
      | some e =>
          by_cases hv : e.isValueErr
          · simp [hd, hx, hi, hv]
          · by_cases ht : containsCI "timeout" (excStr e)
            · simp [hd, hx, hi, hv, ht]
            · simp [hd, hx, hi, hv, ht]
    · simp [hd, hx]

/-- Claim C1: for every failure raised by the provider call under a
valid body, the response is the classified status with detail
"Failed to generate summary. Error: " followed by the failure text; the
status equals the `code` attribute exactly when it is present and lies
in the accepted tuple (429 included, unclamped), and is 500 when the
attribute is absent or outside the tuple. -/
theorem c1_error_classification (sa : Bool) (n : Note) (e : Exc)
    (h : noteValid n = true) :
    (handleSummarizeRequest sa n (Except.error e)).fst
      = HttpResponse.error (classify_status e)
          ("Failed to generate summary. Error: " ++ excStr e)
    ∧ (∀ c : Int, e.code = some c → acceptedCodes.contains c = true →
        classify_status e = c)
    ∧ (e.code = none → classify_status e = 500)
    ∧ (∀ c : Int, e.code = some c → acceptedCodes.contains c = false →
        classify_status e = 500) := by
  refine ⟨failure_response sa n e h, ?_, ?_, ?_⟩
  · exact fun c hc hmem => classify_code_mem e c hc hmem
  · exact fun hc => classify_code_none e hc
  · exact fun c hc hmem => classify_code_out e c hc hmem

/-- Witness for C1 at a concrete 429 failure: the response status is
exactly 429 with the classified detail. -/
theorem c1_witness :
    (handleSummarizeRequest true note0 (Except.error exc429)).fst
      = HttpResponse.error (classify_status exc429)
          ("Failed to generate summary. Error: " ++ excStr exc429)
    ∧ classify_status exc429 = 429 :=
  ⟨(c1_error_classification true note0 exc429 rfl).1,
   (c1_error_classification true note0 exc429 rfl).2.1 429 rfl (by decide)⟩

/-- Claim C2: under both the `SentryTransaction` context manager and
the `with_sentry_transaction` decorator (with the SDK available),
`finish` runs exactly once on every exit path, the status is "ok" on
normal completion and "internal_error" on failure, the failure is
forwarded to the capture path, and the body result or exception is
returned or re-raised unchanged. -/
theorem c2_transaction_guard (name op : String) (body : Except Exc String) :
    ((sentryTransactionRun true name op body).fst = body
      ∧ countFinish name (sentryTransactionRun true name op body).snd = 1
      ∧ (∀ a, body = .ok a →
          statusesOf name (sentryTransactionRun true name op body).snd = ["ok"])
      ∧ (∀ e, body = .error e →
          statusesOf name (sentryTransactionRun true name op body).snd = ["internal_error"]
          ∧ capturesOf (sentryTransactionRun true name op body).snd = [plainCapture e]
          ∧ (sentryTransactionRun true name op body).fst = .error e))
    ∧ ((withSentryTransactionRun true name op body).fst = body
      ∧ countFinish name (withSentryTransactionRun true name op body).snd = 1
      ∧ (∀ a, body = .ok a →
          statusesOf name (withSentryTransactionRun true name op body).snd = ["ok"])
      ∧ (∀ e, body = .error e →
          statusesOf name (withSentryTransactionRun true name op body).snd = ["internal_error"]
          ∧ capturesOf (withSentryTransactionRun true name op body).snd = [plainCapture e]
          ∧ (withSentryTransactionRun true name op body).fst = .error e)) := by
  cases body with
  | ok a =>
      refine ⟨⟨rfl, ?_, ?_, ?_⟩, ⟨rfl, ?_, ?_, ?_⟩⟩ <;>
        simp [sentryTransactionRun, withSentryTransactionRun, txEnter, txExitOk,
          countFinish, statusesOf, capturesOf]
  | error e =>
      refine ⟨⟨rfl, ?_, ?_, ?_⟩, ⟨rfl, ?_, ?_, ?_⟩⟩ <;>
        simp [sentryTransactionRun, withSentryTransactionRun, txEnter, txExitErr,
          countFinish, statusesOf, capturesOf]

/-- Witness for C2 at a concrete failing body: one finish, status
"internal_error", and the exception propagates unchanged. -/
theorem c2_witness :
    countFinish "summarize_note"
      (sentryTransactionRun true "summarize_note" "ai.summarization"
        (Except.error exc0 : Except Exc String)).snd = 1
    ∧ statusesOf "summarize_note"
        (sentryTransactionRun true "summarize_note" "ai.summarization"
          (Except.error exc0 : Except Exc String)).snd = ["internal_error"]
    ∧ (sentryTransactionRun true "summarize_note" "ai.summarization"
        (Except.error exc0 : Except Exc String)).fst = Except.error exc0 :=
  ⟨(c2_transaction_guard "summarize_note" "ai.summarization" (Except.error exc0)).1.2.1,
   ((c2_transaction_guard "summarize_note" "ai.summarization" (Except.error exc0)).1.2.2.2
      exc0 rfl).1,
   ((c2_transaction_guard "summarize_note" "ai.summarization" (Except.error exc0)).1.2.2.2
      exc0 rfl).2.2⟩

/-- Claim C3: `filter_events` implements the ordered three-rule drop
policy for error events — development environment, then `ValueError`,
then case-insensitive "timeout" in the failure text — dropping exactly
when some rule matches and otherwise forwarding the event unchanged; in
development every error event is dropped regardless of shape. -/
theorem c3_error_filter_policy (env : String) (ev : ErrorEvent) (e : Exc) :
    (env = "development" → filter_events env ev = none)
    ∧ (ev.hasException = true → ev.excInfo = some e →
        (filter_events env ev = none ↔ (specErrorDropRules env e).any id = true)
        ∧ ((specErrorDropRules env e).any id = false → filter_events env ev = some ev)) := by
  constructor
  · intro hd; subst hd; exact filter_events_dev ev
  · intro hx hi
    unfold filter_events specErrorDropRules
    by_cases hd : env == "development"
    · simp [hd]
    · by_cases hv : e.isValueErr
      · simp [hd, hx, hi, hv]
      · by_cases ht : containsCI "timeout" (excStr e)
        · simp [hd, hx, hi, hv, ht]
        · simp [hd, hx, hi, hv, ht]

/-- Witness for C3: in development every error event is dropped, and
in production a timeout failure makes the drop-rule scan match. -/
theorem c3_witness :
    filter_events "development" { hasException := true, excInfo := some exc0 } = none
    ∧ (filter_events "production" { hasException := true, excInfo := some excTimeout } = none
        ↔ (specErrorDropRules "production" excTimeout).any id = true) :=
  ⟨(c3_error_filter_policy "development" { hasException := true, excInfo := some exc0 }
      exc0).1 rfl,
   ((c3_error_filter_policy "production" { hasException := true, excInfo := some excTimeout }
      excTimeout).2 rfl rfl).1⟩

/-- Claim C4: a successful request with a valid body returns 200 with
the provider text as summary; the trace holds exactly one transaction
start for "summarize_note" and one for "gemini_api_call", both set to
status "ok" and finished exactly once, exactly one provider invocation,
and no error capture. -/
theorem c4_success_shape (n : Note) (text : String) (h : noteValid n = true) :
    (handleSummarizeRequest true n (Except.ok text)).fst = HttpResponse.ok text
    ∧ countTxStart "summarize_note" (handleSummarizeRequest true n (Except.ok text)).snd = 1
    ∧ countTxStart "gemini_api_call" (handleSummarizeRequest true n (Except.ok text)).snd = 1
    ∧ statusesOf "summarize_note" (handleSummarizeRequest true n (Except.ok text)).snd = ["ok"]
    ∧ statusesOf "gemini_api_call" (handleSummarizeRequest true n (Except.ok text)).snd = ["ok"]
    ∧ countFinish "summarize_note" (handleSummarizeRequest true n (Except.ok text)).snd = 1
    ∧ countFinish "gemini_api_call" (handleSummarizeRequest true n (Except.ok text)).snd = 1
    ∧ countProviderCalls (handleSummarizeRequest true n (Except.ok text)).snd = 1
    ∧ capturesOf (handleSummarizeRequest true n (Except.ok text)).snd = [] := by
  have hif : handleSummarizeRequest true n (Except.ok text)
      = summarize_note true n (Except.ok text) := by
    simp [handleSummarizeRequest, h]
  rw [hif]
  exact ⟨rfl, rfl, rfl, rfl, rfl, rfl, rfl, rfl, rfl⟩

/-- Witness for C4 at a concrete request: 200 with the provider text,
one outer transaction, one provider call. -/
theorem c4_witness :
    (handleSummarizeRequest true note0 (Except.ok "A summary.")).fst
      = HttpResponse.ok "A summary."
    ∧ countTxStart "summarize_note"
        (handleSummarizeRequest true note0 (Except.ok "A summary.")).snd = 1
    ∧ countProviderCalls
        (handleSummarizeRequest true note0 (Except.ok "A summary.")).snd = 1 :=
  ⟨(c4_success_shape note0 "A summary." rfl).1,
   (c4_success_shape note0 "A summary." rfl).2.1,
   (c4_success_shape note0 "A summary." rfl).2.2.2.2.2.2.2.1⟩

/-- Claim C5: a request with empty text, or with a non-positive
`max_length`, is rejected with status 422, a body without a summary
field, and no telemetry event. -/
theorem c5_validation_reject (sa : Bool) (n : Note) (p : Except Exc String)
    (h : n.text = "" ∨ ∃ m, n.max_length = some m ∧ m ≤ 0) :
    (handleSummarizeRequest sa n p).fst.status = 422
    ∧ (handleSummarizeRequest sa n p).fst.hasSummary = false
    ∧ (handleSummarizeRequest sa n p).snd = [] := by
  have hv : noteValid n = false := by
    rcases h with h | ⟨m, hm, hle⟩
    · simp [noteValid, h]
    · have : ¬(0 < m) := by omega
      simp [noteValid, hm, this]
  simp [handleSummarizeRequest, hv, HttpResponse.status, HttpResponse.hasSummary]

/-- Witness for C5 at a concrete empty-text request. -/
theorem c5_witness :
    (handleSummarizeRequest true { text := "" } (Except.ok "s")).fst.status = 422
    ∧ (handleSummarizeRequest true { text := "" } (Except.ok "s")).fst.hasSummary = false
    ∧ (handleSummarizeRequest true { text := "" } (Except.ok "s")).snd = [] :=
  c5_validation_reject true { text := "" } (Except.ok "s") (Or.inl rfl)

/-- Claim C6: a provider failure whose text contains "timeout" in any
letter case yields a trace none of whose capture submissions survives
`filter_events`, in every environment, while the HTTP caller still
receives the classified status and detail. -/
theorem c6_timeout_end_to_end (env : String) (sa : Bool) (n : Note) (e : Exc)
    (hn : noteValid n = true)
    (ht : containsCI "timeout" (excStr e) = true) :
    forwardedCaptures env (handleSummarizeRequest sa n (Except.error e)).snd = []
    ∧ (handleSummarizeRequest sa n (Except.error e)).fst
        = HttpResponse.error (classify_status e) (detailMsg e) := by
  refine ⟨?_, failure_response sa n e hn⟩
  have h1 : filter_events env (mkCaptureEvent (plainCapture e)) = none :=
    timeout_capture_dropped env _ ht
  have h2 : ∀ ctx : ReportContext,
      filter_events env (mkCaptureEvent
        { exc := e, tags := ("section", "manual-report") :: ctx.tags,
          extraCtx := some ctx }) = none :=
    fun ctx => timeout_capture_dropped env _ ht
  have h3 : filter_events env (mkCaptureEvent
      (plainCapture (Exc.httpException (classify_status e) (detailMsg e)))) = none :=
    timeout_capture_dropped env _ (detail_keeps_timeout e _ ht)
  cases sa with
  | false =>
      simp [handleSummarizeRequest, hn, summarize_note, txEnter, txExitErr,
        breadcrumbEvents, report_error, forwardedCaptures, capturesOf]
  | true =>
      simp [handleSummarizeRequest, hn, summarize_note, txEnter, txExitErr,
        breadcrumbEvents, report_error, forwardedCaptures, capturesOf,
        h1, h2 (mainReportCtx n), h3]

/-- Witness for C6 at a concrete mixed-case timeout failure in the
production environment. -/
theorem c6_witness :
    forwardedCaptures "production"
      (handleSummarizeRequest true note0 (Except.error excTimeout)).snd = []
    ∧ (handleSummarizeRequest true note0 (Except.error excTimeout)).fst
        = HttpResponse.error (classify_status excTimeout) (detailMsg excTimeout) :=
  c6_timeout_end_to_end "production" true note0 excTimeout rfl rfl

/-- Claim C7: a transaction event whose name contains "health"
case-insensitively and which was selected for forwarding is re-sampled
against a fixed 1% threshold on the uniform draw, keeping the sampled
flag exactly when the draw selects it and clearing it (dropping the
event) otherwise; a transaction whose name does not contain "health"
passes through unchanged. -/
theorem c7_health_resample (r : ℚ) (ev : TxEvent) :
    (isHealthName ev.transaction = true → ev.sampled = some true →
        filter_transactions r ev = { ev with sampled := some (decide (r < 1 / 100)) }
        ∧ (1 / 100 ≤ r → (filter_transactions r ev).sampled = some false)
        ∧ (r < 1 / 100 → (filter_transactions r ev).sampled = some true))
    ∧ (∀ s, ev.transaction = some s → containsCI "health" s = false →
        filter_transactions r ev = ev) := by
  constructor
  · intro hh hs
    refine ⟨by simp [filter_transactions, hh, hs], ?_, ?_⟩
    · intro hr
      rw [one_div] at hr
      simp [filter_transactions, hh, hs, hr]
    · intro hr
      rw [one_div] at hr
      simp [filter_transactions, hh, hs, hr]
  · intro s hsome hnot
    have hh : isHealthName ev.transaction = false := by
      simp [isHealthName, hsome, hnot]
    simp [filter_transactions, hh]

/-- Witness for C7: a health transaction with a draw of one half loses
its sampled flag, while a non-health transaction is unchanged. -/
theorem c7_witness :
    (filter_transactions (1 / 2)
        { transaction := some "GET /health", sampled := some true }).sampled = some false
    ∧ filter_transactions (1 / 2)
        { transaction := some "GET /summarize-note", sampled := some true }
      = { transaction := some "GET /summarize-note", sampled := some true } :=
  ⟨((c7_health_resample (1 / 2)
      { transaction := some "GET /health", sampled := some true }).1 rfl rfl).2.1
        (by norm_num),
   (c7_health_resample (1 / 2)
      { transaction := some "GET /summarize-note", sampled := some true }).2
        "GET /summarize-note" rfl (by decide)⟩

/-- Claim C8: every provider failure is reported through `report_error`
with tags containing service "ai-summarization" and endpoint
"summarize_note" (plus the fixed manual-report section tag) and with
extra data consisting of the input text length and the provider model
identifier "gemini-2.0-flash"; this report is subject to the
environment and timeout drop rules of the event filter. -/
theorem c8_report_context (env : String) (n : Note) (e : Exc)
    (hn : noteValid n = true) :
    mainReportCapture n e ∈ capturesOf (handleSummarizeRequest true n (Except.error e)).snd
    ∧ (mainReportCapture n e).tags =
        [("section", "manual-report"), ("service", "ai-summarization"),
         ("endpoint", "summarize_note")]
    ∧ (mainReportCtx n).extra.input_length = n.text.length
    ∧ (mainReportCtx n).extra.model = "gemini-2.0-flash"
    ∧ (env = "development" →
        mainReportCapture n e ∉
          forwardedCaptures env (handleSummarizeRequest true n (Except.error e)).snd)
    ∧ (containsCI "timeout" (excStr e) = true →
        mainReportCapture n e ∉
          forwardedCaptures env (handleSummarizeRequest true n (Except.error e)).snd) := by
  refine ⟨?_, rfl, rfl, rfl, ?_, ?_⟩
  · rw [capturesOf_failure n e hn]
    exact List.mem_cons_of_mem _ (List.mem_cons_self _ _)
  · intro hd hc
    have hs := mem_forwarded_isSome env _ _ hc
    subst hd
    rw [filter_events_dev] at hs
    simp at hs
  · intro ht hc
    have hs := mem_forwarded_isSome env _ _ hc
    rw [timeout_capture_dropped env _ ht] at hs
    simp at hs

/-- Witness for C8 at a concrete failure in development: the report
capture is submitted but not forwarded. -/
theorem c8_witness :
    mainReportCapture note0 exc0
        ∈ capturesOf (handleSummarizeRequest true note0 (Except.error exc0)).snd
    ∧ mainReportCapture note0 exc0 ∉
        forwardedCaptures "development"
          (handleSummarizeRequest true note0 (Except.error exc0)).snd :=
  ⟨(c8_report_context "development" note0 exc0 rfl).1,
   (c8_report_context "development" note0 exc0 rfl).2.2.2.2.1 rfl⟩

/-- Claim C9: for any request body and any fixed provider behaviour,
the HTTP response is identical whether telemetry is available or not:
the disabled path only removes trace events, never changes the result. -/
theorem c9_telemetry_noninterference (n : Note) (p : Except Exc String) :
    (handleSummarizeRequest true n p).fst = (handleSummarizeRequest false n p).fst := by
  unfold handleSummarizeRequest
  by_cases hv : noteValid n <;> simp [hv]
  cases p <;> rfl

/-- Counterexample to C10 as stated: at a concrete provider failure
with telemetry enabled, three capture submissions reach the telemetry
client, not two. -/
theorem c10_counterexample :
    (capturesOf (handleSummarizeRequest true note0 (Except.error exc0)).snd).length = 3
    ∧ (capturesOf (handleSummarizeRequest true note0 (Except.error exc0)).snd).length ≠ 2 :=
  ⟨rfl, by decide⟩

/-- Claim C10 (amended): on a provider failure with telemetry enabled,
exactly three capture submissions reach the telemetry client, in
order: the original provider exception captured by the inner span
guard exit handler, the same exception via the manual error report,
and the raised `HTTPException` captured by the outer transaction guard
exit handler; every forwarded capture has passed the error-event
filter unchanged. -/
theorem c10_amended_three_captures (n : Note) (e : Exc) (hn : noteValid n = true) :
    capturesOf (handleSummarizeRequest true n (Except.error e)).snd =
      [plainCapture e, mainReportCapture n e,
       plainCapture (Exc.httpException (classify_status e) (detailMsg e))]
    ∧ (capturesOf (handleSummarizeRequest true n (Except.error e)).snd).length = 3
    ∧ (∀ env : String, ∀ c : CaptureCall,
        c ∈ forwardedCaptures env (handleSummarizeRequest true n (Except.error e)).snd →
          filter_events env (mkCaptureEvent c) = some (mkCaptureEvent c)) := by
  refine ⟨capturesOf_failure n e hn, ?_, ?_⟩
  · rw [capturesOf_failure n e hn]
    rfl
  · intro env c hc
    have hs := mem_forwarded_isSome env _ _ hc
    rcases filter_events_none_or_id env (mkCaptureEvent c) with h0 | h0
    · rw [h0] at hs
      simp at hs
    · exact h0

/-- Witness for the amended C10 at a concrete failure: the three
captures with their identities. -/
theorem c10_amended_witness :
    capturesOf (handleSummarizeRequest true note0 (Except.error exc0)).snd =
      [plainCapture exc0, mainReportCapture note0 exc0,
       plainCapture (Exc.httpException (classify_status exc0) (detailMsg exc0))] :=
  (c10_amended_three_captures note0 exc0 rfl).1

end Literati
